import Mathlib

/-!
Verification of the ctxopt-core streaming classifier and suggestion throttler
(packages/ctxopt-core/src). The Rust sources are shallowly embedded:

* text is `List Char` (the Rust ring buffer stores `char`s, and the regex
  patterns of stream/patterns.rs are hand-compiled to executable matchers
  with leftmost-first alternation, greedy/lazy repetition with backtracking,
  exactly as the regex crate's default semantics);
* `std::time::Instant` is an `Int` timestamp in milliseconds and
  `std::time::Duration` a `Nat` number of milliseconds; every operation that
  reads the clock takes the current time `now : Int` as an argument
  (`Instant::elapsed` saturates at zero, modelled with `Int.toNat`);
* `&mut self` methods become state-passing functions returning a pair.

Two leaf components are declared in the crate but their files are not part
of the sources: src/config.rs and src/tokens/estimator.rs.  They are
modelled from the spec where marked.
-/

set_option autoImplicit false

namespace Ctxopt

/-! ## Character classes used by the compiled regex patterns

The regex crate's `\s`, `\d`, `.`, `[a-zA-Z]` and friends.  `\s` is the
Unicode white-space class; `\d` is restricted here to the ASCII digits (the
Unicode class is larger, but every string examined by a theorem below is
ASCII, where the two classes coincide); `.` matches anything except `'\n'`.
-/

/-- Unicode white space, the regex crate's `\s` class. -/
def isWsRe (c : Char) : Bool :=
  c == ' ' || c == '\t' || c == '\n' || c == '\x0b' || c == '\x0c' || c == '\r' ||
  c == '\u0085' || c == '\u00A0' || c == '\u1680' ||
  ('\u2000' ≤ c && c ≤ '\u200A') ||
  c == '\u2028' || c == '\u2029' || c == '\u202F' || c == '\u205F' || c == '\u3000'

/-- Decimal digit, the regex `\d` class (ASCII fragment). -/
def isDigitRe (c : Char) : Bool := c.isDigit

/-- The regex `.` class: any character except a line feed. -/
def isDotRe (c : Char) : Bool := !(c == '\n')

/-- The regex `\S` class: any character that is not white space. -/
def isNonWsRe (c : Char) : Bool := !(isWsRe c)

/-- The regex `[a-zA-Z]` class. -/
def isAlphaRe (c : Char) : Bool := c.isAlpha

/-- The regex `[0-9;]` class of the ANSI pattern. -/
def isDigitSemiRe (c : Char) : Bool := c.isDigit || c == ';'

/-- The regex `[:\s]` class of the file-read pattern. -/
def isColonWsRe (c : Char) : Bool := c == ':' || isWsRe c

/-- The regex `["']` class of the file-read pattern. -/
def isQuoteRe (c : Char) : Bool := c == Char.ofNat 34 || c == Char.ofNat 39

/-- The regex `[^\s"']` class capturing a path character. -/
def isPathCharRe (c : Char) : Bool :=
  !(isWsRe c) && !(c == Char.ofNat 34) && !(c == Char.ofNat 39)

/-! ## Backtracking matcher combinators

A matcher in continuation-passing style: a pattern fragment receives the
continuation to run on the rest of the input, and alternation / repetition
try alternatives in the regex crate's leftmost-first preference order
(earlier alternatives first, greedy repetition longest first, lazy
repetition shortest first).  The `Option` payload produced by the final
continuation threads through unchanged, which lets the same combinators
compute either the remaining suffix or a capture group.
-/

/-- Continuation-passing matcher over character lists. -/
abbrev K := List Char → Option (List Char)

/-- Match a single character satisfying `p`. -/
def charIf (p : Char → Bool) (k : K) : K
  | [] => none
  | c :: cs => if p c then k cs else none

/-- Match one specific character (case-sensitive). -/
def charCS (c : Char) (k : K) : K := charIf (fun x => x == c) k

/-- Match a literal given as a lowercase character list, case-insensitively
(the regex `(?i)` flag lowers both sides). -/
def litCI : List Char → K → K
  | [], k => k
  | c :: cs, k => charIf (fun x => x.toLower == c) (litCI cs k)

/-- Match a literal case-sensitively. -/
def litCS : List Char → K → K
  | [], k => k
  | c :: cs, k => charIf (fun x => x == c) (litCS cs k)

/-- Case-insensitive literal from a string (written lowercase). -/
def litS (s : String) (k : K) : K := litCI s.data k

/-- Leftmost-first alternation: try `m1`, then `m2`. -/
def orK (m1 m2 : K) : K := fun s =>
  match m1 s with
  | some r => some r
  | none => m2 s

/-- Greedy `p*`: consume as many `p`-characters as possible, backtracking
one character at a time when the continuation fails. -/
def starC (p : Char → Bool) (k : K) : K
  | [] => k []
  | c :: cs =>
    if p c then
      match starC p k cs with
      | some r => some r
      | none => k (c :: cs)
    else k (c :: cs)

/-- Greedy `p+`: one mandatory character, then greedy `p*`. -/
def plusC (p : Char → Bool) (k : K) : K := charIf p (starC p k)

/-- Lazy `p*?`: try the continuation first, consuming a character only on
failure. -/
def lazyStarC (p : Char → Bool) (k : K) : K
  | [] => k []
  | c :: cs =>
    match k (c :: cs) with
    | some r => some r
    | none => if p c then lazyStarC p k cs else none

/-- Greedy optional character `p?`. -/
def optC (p : Char → Bool) (k : K) : K
  | [] => k []
  | c :: cs =>
    if p c then
      match k cs with
      | some r => some r
      | none => k (c :: cs)
    else k (c :: cs)

/-- Greedy optional subpattern `(sub)?`: try with the group, then without. -/
def optSub (sub : K → K) (k : K) : K := fun s =>
  match sub k s with
  | some r => some r
  | none => k s

/-- End-of-haystack anchor, the regex `$` (no multi-line flag is set in the
source, so it matches only at the very end of the input). -/
def endK (k : K) : K
  | [] => k []
  | _ :: _ => none

/-- The empty continuation: succeed, returning the remaining input. -/
def epsK : K := fun s => some s

/-- Exactly four digits, the regex `\d{4}` of the TypeScript and Rust
error patterns. -/
def digit4 (k : K) : K :=
  charIf isDigitRe (charIf isDigitRe (charIf isDigitRe (charIf isDigitRe k)))

/-- Run a pattern at the start of `s` and turn the remaining suffix into the
length of the match. -/
def runM (pat : K) (s : List Char) : Option Nat :=
  (pat s).map (fun r => s.length - r.length)

/-! ## The pattern catalog (stream/patterns.rs, `Patterns::new`)

Each `Regex` literal of the source is compiled to a matcher pipeline, one
definition per pattern, with the source regex quoted in the doc comment.
-/

/-- Pattern `(?i)error\s+TS\d{4}:|Cannot find (name|module)|has no exported member`. -/
def typescriptErrorPat : K :=
  orK (litS "error" (plusC isWsRe (litS "ts" (digit4 (charCS ':' epsK)))))
    (orK (litS "cannot find " (orK (litS "name" epsK) (litS "module" epsK)))
      (litS "has no exported member" epsK))

/-- Tail `\s+.+\s+\S+/\S+` of the ESLint pattern. -/
def eslintTail : K :=
  plusC isWsRe (plusC isDotRe (plusC isWsRe
    (plusC isNonWsRe (charCS '/' (plusC isNonWsRe epsK)))))

/-- Pattern `(?i)\d+:\d+\s+(error|warning)\s+.+\s+\S+/\S+`. -/
def eslintErrorPat : K :=
  plusC isDigitRe (charCS ':' (plusC isDigitRe (plusC isWsRe
    (orK (litS "error" eslintTail) (litS "warning" eslintTail)))))

/-- Pattern `(?i)error\[E\d{4}\]:|cannot find (value|type|crate)`. -/
def rustErrorPat : K :=
  orK (litS "error[e" (digit4 (litS "]:" epsK)))
    (litS "cannot find "
      (orK (litS "value" epsK) (orK (litS "type" epsK) (litS "crate" epsK))))

/-- Pattern `(?i)undefined:|cannot find package|syntax error`. -/
def goErrorPat : K :=
  orK (litS "undefined:" epsK)
    (orK (litS "cannot find package" epsK) (litS "syntax error" epsK))

/-- Pattern `(?i)(NameError|ImportError|SyntaxError|ModuleNotFoundError|TypeError):`. -/
def pythonErrorPat : K :=
  orK (litS "nameerror" (charCS ':' epsK))
    (orK (litS "importerror" (charCS ':' epsK))
      (orK (litS "syntaxerror" (charCS ':' epsK))
        (orK (litS "modulenotfounderror" (charCS ':' epsK))
          (litS "typeerror" (charCS ':' epsK)))))

/-- Body `(error|failed|cannot|unexpected|compilation failed)(\s|:)` of the
generic pattern. -/
def genericBody : K :=
  orK (litS "error" (charIf isColonWsRe epsK))
    (orK (litS "failed" (charIf isColonWsRe epsK))
      (orK (litS "cannot" (charIf isColonWsRe epsK))
        (orK (litS "unexpected" (charIf isColonWsRe epsK))
          (litS "compilation failed" (charIf isColonWsRe epsK)))))

/-- Pattern `(?i)(^|\s)(error|failed|cannot|unexpected|compilation failed)(\s|:)`.
The caret alternative only applies at the start of the haystack, so the
matcher takes an `atStart` flag. -/
def genericErrorPat (atStart : Bool) : K :=
  orK (fun s => if atStart then genericBody s else none)
    (charIf isWsRe genericBody)

/-- Pattern `\x1b\[[0-9;]*[a-zA-Z]|\x1b\].*?\x07` (ANSI escape sequences). -/
def ansiEscapePat : K :=
  orK (charCS '\x1b' (charCS '[' (starC isDigitSemiRe (charIf isAlphaRe epsK))))
    (charCS '\x1b' (charCS ']' (lazyStarC isDotRe (charCS '\x07' epsK))))

/-- Extension alternation `(ts|js|tsx|jsx|py|rs|go|java|c|cpp|h|hpp|md|json|yaml|yml|toml)`
of the file-read pattern, in source order. -/
def fileExtAlt (k : K) : K :=
  orK (litS "ts" k) (orK (litS "js" k) (orK (litS "tsx" k) (orK (litS "jsx" k)
    (orK (litS "py" k) (orK (litS "rs" k) (orK (litS "go" k) (orK (litS "java" k)
      (orK (litS "c" k) (orK (litS "cpp" k) (orK (litS "h" k) (orK (litS "hpp" k)
        (orK (litS "md" k) (orK (litS "json" k) (orK (litS "yaml" k)
          (orK (litS "yml" k) (litS "toml" k))))))))))))))))

/-- Capture group #4 `([^\s"']+\.(ext))` of the file-read pattern: run it at
`s1` and return the captured span.  (The trailing `["']?` of the pattern is
optional and unconditionally succeeds, so it affects neither the capture nor
whether the pattern matched.) -/
def fileReadGroup4 (s1 : List Char) : Option (List Char) :=
  plusC isPathCharRe
    (charCS '.' (fileExtAlt (fun rest => some (s1.take (s1.length - rest.length))))) s1

/-- Part `[:\s]+["']?` of the file-read pattern followed by group #4. -/
def fileReadAfter : K :=
  plusC isColonWsRe (optC isQuoteRe (fun s1 => fileReadGroup4 s1))

/-- Pattern
`(?i)(Read(ing)?(\s+file)?|file_path)[:\s]+["']?([^\s"']+\.(ext))["']?`,
returning the group #4 capture on success. -/
def fileReadPat : List Char → Option (List Char) :=
  orK
    (litS "read" (optSub (fun k => litS "ing" k)
      (optSub (fun k => plusC isWsRe (litS "file" k)) fileReadAfter)))
    (litS "file_path" fileReadAfter)

/-- Pattern `(❯|>\s*$|\$\s*$|claude\s*>\s*$)` (no `(?i)` flag: case-sensitive). -/
def promptReadyPat : K :=
  orK (charCS '❯' epsK)
    (orK (charCS '>' (starC isWsRe (endK epsK)))
      (orK (charCS '$' (starC isWsRe (endK epsK)))
        (litCS "claude".data
          (starC isWsRe (charCS '>' (starC isWsRe (endK epsK)))))))

/-! ## Regex driver loops

`find_iter(..).count()`, `replace_all(.., "")`, `is_match` and `captures`
of the regex crate, as used by the analyzer: scan the haystack left to
right, and after a match resume after its end (all the patterns above need
at least one character, so matches are never empty).  The `skip` counter
implements the jump over a match of length `skip + 1` while keeping the
recursion structural.
-/

/-- Counting loop of `find_iter(text).count()`: non-overlapping matches,
scanning left to right.  The `atStart` flag feeds the `^` anchor of the
generic pattern at position zero. -/
def countAux (m : Bool → List Char → Option Nat) : Nat → Bool → List Char → Nat
  | _, _, [] => 0
  | Nat.succ k, _, _ :: cs => countAux m k false cs
  | 0, atStart, c :: cs =>
    match m atStart (c :: cs) with
    | some (Nat.succ n) => 1 + countAux m n false cs
    | _ => countAux m 0 false cs

/-- Number of non-overlapping matches in a haystack. -/
def countMatches (m : Bool → List Char → Option Nat) (text : List Char) : Nat :=
  countAux m 0 true text

/-- Replacement loop of `replace_all(text, "")` for the ANSI pattern: drop
every match, keep every other character. -/
def stripAux : Nat → List Char → List Char
  | _, [] => []
  | Nat.succ k, _ :: cs => stripAux k cs
  | 0, c :: cs =>
    match runM ansiEscapePat (c :: cs) with
    | some (Nat.succ n) => stripAux n cs
    | _ => c :: stripAux 0 cs

/-- ANSI stripping over a character list. -/
def stripAnsiList (text : List Char) : List Char := stripAux 0 text

/-- Search loop of `is_match`: does the pattern match at some position? -/
def existsMatch (m : List Char → Bool) : List Char → Bool
  | [] => m []
  | c :: cs => m (c :: cs) || existsMatch m cs

/-- Search loop of `captures` for the file-read pattern: the group #4
capture of the leftmost match. -/
def findCaptureAux : List Char → Option (List Char)
  | [] => none
  | c :: cs =>
    match fileReadPat (c :: cs) with
    | some cap => some cap
    | none => findCaptureAux cs

/-! ## Content types and build tools (stream/patterns.rs) -/

/-- Build tools recognised by the error patterns (enum `BuildTool`). -/
inductive BuildTool where
  | TypeScript
  | ESLint
  | Rust
  | Go
  | Python
  | Webpack
  | Vite
  | Generic
  deriving DecidableEq, Repr

/-- Display string of a build tool (`BuildTool::as_str`). -/
def BuildTool.as_str : BuildTool → String
  | .TypeScript => "tsc"
  | .ESLint => "eslint"
  | .Rust => "cargo"
  | .Go => "go"
  | .Python => "python"
  | .Webpack => "webpack"
  | .Vite => "vite"
  | .Generic => "generic"

/-- Content categories detected in the stream (enum `ContentType`). -/
inductive ContentType where
  | BuildError (error_count : Nat) (tool : BuildTool)
  | FileRead (file_path : String)
  | LargeOutput (size : Nat)
  | PromptReady
  | Normal
  deriving DecidableEq, Repr

/-! ## Suggestion templates (injector/templates.rs) -/

/-- Suggestion categories (enum `SuggestionType`). -/
inductive SuggestionType where
  | BuildErrors
  | LargeOutput
  | PromptReminder
  | FileRead
  deriving DecidableEq, Repr

/-- A generated suggestion (struct `Suggestion`). -/
structure Suggestion where
  suggestion_type : SuggestionType
  display_message : String
  deriving DecidableEq, Repr

/-- Constructor `Suggestion::build_errors`. -/
def Suggestion.build_errors (error_count : Nat) (tool : BuildTool) : Suggestion :=
  { suggestion_type := .BuildErrors,
    display_message :=
      "\x1b[33m[ctxopt]\x1b[0m " ++ toString error_count ++ " " ++ tool.as_str ++
      " errors detected. Use \x1b[36mmcp__ctxopt__auto_optimize\x1b[0m to compress (95%+ savings)." }

/-- Constructor `Suggestion::large_output`. -/
def Suggestion.large_output (size : Nat) : Suggestion :=
  { suggestion_type := .LargeOutput,
    display_message :=
      "\x1b[33m[ctxopt]\x1b[0m Large output (~" ++ toString (size / 1024) ++
      "KB). Use \x1b[36mmcp__ctxopt__compress_context\x1b[0m for 40-60% savings." }

/-- Constructor `Suggestion::prompt_reminder`. -/
def Suggestion.prompt_reminder : Suggestion :=
  { suggestion_type := .PromptReminder,
    display_message :=
      "\x1b[90m[ctxopt] MCP tools: smart_file_read, auto_optimize, compress_context\x1b[0m" }

/-- Constructor `Suggestion::file_read`. -/
def Suggestion.file_read (file_path : String) : Suggestion :=
  { suggestion_type := .FileRead,
    display_message :=
      "\x1b[33m[ctxopt]\x1b[0m Reading " ++ file_path ++
      ". Consider \x1b[36mmcp__ctxopt__smart_file_read\x1b[0m for 50-70% savings." }

/-- Method `Suggestion::format_for_display`. -/
def Suggestion.format_for_display (s : Suggestion) : String :=
  "\n" ++ s.display_message ++ "\n"

/-! ## Ring buffer (stream/buffer.rs)

A `VecDeque<char>` is a `List Char` whose head is the deque's front. -/

/-- Struct `RingBuffer`. -/
structure RingBuffer where
  data : List Char
  capacity : Nat
  deriving DecidableEq, Repr

namespace RingBuffer

/-- Constructor `RingBuffer::new` (`with_capacity` only pre-allocates). -/
def new (capacity : Nat) : RingBuffer := { data := [], capacity := capacity }

/-- One iteration of the `push` loop: `pop_front` when at (or beyond)
capacity, then `push_back` (`pop_front` of an empty deque is a no-op,
which `List.tail` mirrors). -/
def pushChar (b : RingBuffer) (ch : Char) : RingBuffer :=
  if b.capacity ≤ b.data.length then { b with data := b.data.tail ++ [ch] }
  else { b with data := b.data ++ [ch] }

/-- Method `RingBuffer::push`: append the characters of `text` one at a
time. -/
def push (b : RingBuffer) (text : List Char) : RingBuffer :=
  text.foldl pushChar b

/-- Method `RingBuffer::content`. -/
def content (b : RingBuffer) : List Char := b.data

/-- Method `RingBuffer::clear`. -/
def clear (b : RingBuffer) : RingBuffer := { b with data := [] }

/-- Method `RingBuffer::len`. -/
def len (b : RingBuffer) : Nat := b.data.length

/-- Method `RingBuffer::is_empty`. -/
def is_empty (b : RingBuffer) : Bool := b.data.isEmpty

/-- Method `RingBuffer::last_n`: skip `len.saturating_sub(n)` characters
from the front. -/
def last_n (b : RingBuffer) (n : Nat) : List Char :=
  b.data.drop (b.data.length - n)

end RingBuffer

/-- Operations a client can perform on a ring buffer (used to state the
all-sequences invariant; `last_n` reads without mutating). -/
inductive BufOp where
  | pushOp (t : List Char)
  | clearOp
  | lastNOp (n : Nat)
  deriving DecidableEq, Repr

/-- Run a sequence of buffer operations. -/
def RingBuffer.runOps (b : RingBuffer) : List BufOp → RingBuffer
  | [] => b
  | BufOp.pushOp t :: rest => (b.push t).runOps rest
  | BufOp.clearOp :: rest => b.clear.runOps rest
  | BufOp.lastNOp _ :: rest => b.runOps rest

/-! ## Token estimator -/

/-- Modelled from the spec: src/tokens/estimator.rs is declared by
src/tokens/mod.rs but its file is not among the sources.  Spec §4.4:
`estimate(text) = text.byte_length / 4`, integer division; the byte length
of the UTF-8 encoding is the sum of the characters' `utf8Size`. -/
def TokenEstimator.estimate (text : List Char) : Nat :=
  (text.foldl (fun acc c => acc + c.utf8Size) 0) / 4

/-! ## Stream analyzer (stream/analyzer.rs) -/

/-- Constant `LARGE_OUTPUT_THRESHOLD` (characters). -/
def LARGE_OUTPUT_THRESHOLD : Nat := 5000

/-- Constant `BUFFER_CAPACITY` (characters). -/
def BUFFER_CAPACITY : Nat := 50000

/-- Struct `AnalysisResult`.  `clean_text` is kept as a character list. -/
structure AnalysisResult where
  content_types : List ContentType
  token_estimate : Nat
  total_size : Nat
  clean_text : List Char
  deriving DecidableEq, Repr

/-- Struct `StreamAnalyzer` (the stateless `TokenEstimator` field is the
pure function above). -/
structure StreamAnalyzer where
  buffer : RingBuffer
  total_tokens : Nat
  error_count : Nat
  deriving DecidableEq, Repr

namespace StreamAnalyzer

/-- Constructor `StreamAnalyzer::new`. -/
def new : StreamAnalyzer :=
  { buffer := RingBuffer.new BUFFER_CAPACITY, total_tokens := 0, error_count := 0 }

/-- Method `StreamAnalyzer::strip_ansi`. -/
def strip_ansi (text : List Char) : List Char := stripAnsiList text

/-- Method `StreamAnalyzer::detect_build_errors`: try the tools in source
order, first match wins, and add that tool's count to the cumulative
`error_count` (passed in and returned, as the Rust method mutates it). -/
def detect_build_errors (error_count : Nat) (text : List Char) :
    Option ContentType × Nat :=
  let ts_count := countMatches (fun _ s => runM typescriptErrorPat s) text
  if 0 < ts_count then (some (.BuildError ts_count .TypeScript), error_count + ts_count)
  else
    let eslint_count := countMatches (fun _ s => runM eslintErrorPat s) text
    if 0 < eslint_count then (some (.BuildError eslint_count .ESLint), error_count + eslint_count)
    else
      let rust_count := countMatches (fun _ s => runM rustErrorPat s) text
      if 0 < rust_count then (some (.BuildError rust_count .Rust), error_count + rust_count)
      else
        let go_count := countMatches (fun _ s => runM goErrorPat s) text
        if 0 < go_count then (some (.BuildError go_count .Go), error_count + go_count)
        else
          let python_count := countMatches (fun _ s => runM pythonErrorPat s) text
          if 0 < python_count then (some (.BuildError python_count .Python), error_count + python_count)
          else
            let generic_count := countMatches (fun fl s => runM (genericErrorPat fl) s) text
            if 0 < generic_count then (some (.BuildError generic_count .Generic), error_count + generic_count)
            else (none, error_count)

/-- Method `StreamAnalyzer::detect_file_read`: group #4 of the first
file-read match. -/
def detect_file_read (text : List Char) : Option ContentType :=
  (findCaptureAux text).map (fun cap => ContentType.FileRead (String.mk cap))

/-- Method `StreamAnalyzer::detect_prompt_ready`: the prompt pattern
against the last 50 buffer characters or against the chunk itself. -/
def detect_prompt_ready (buffer : RingBuffer) (text : List Char) : Bool :=
  existsMatch (fun s => (promptReadyPat s).isSome) (buffer.last_n 50) ||
  existsMatch (fun s => (promptReadyPat s).isSome) text

/-- Method `StreamAnalyzer::analyze`, state-passing. -/
def analyze (s : StreamAnalyzer) (chunk : String) : AnalysisResult × StreamAnalyzer :=
  let clean := strip_ansi chunk.data
  let buffer1 := s.buffer.push clean
  let t := TokenEstimator.estimate clean
  let build0 := (detect_build_errors s.error_count clean).1
  let ec1 := (detect_build_errors s.error_count clean).2
  let file0 := detect_file_read clean
  let large0 : List ContentType :=
    if LARGE_OUTPUT_THRESHOLD < buffer1.len then [.LargeOutput buffer1.len] else []
  let prompt0 := detect_prompt_ready buffer1 clean
  let buffer2 := if prompt0 then buffer1.clear else buffer1
  let cts0 :=
    build0.toList ++ file0.toList ++ large0 ++
    (if prompt0 then [ContentType.PromptReady] else [])
  let content_types := if cts0 = [] then [ContentType.Normal] else cts0
  ({ content_types := content_types, token_estimate := t,
     total_size := buffer2.len, clean_text := clean },
   { buffer := buffer2, total_tokens := s.total_tokens + t, error_count := ec1 })

/-- Method `StreamAnalyzer::total_errors`. -/
def total_errors (s : StreamAnalyzer) : Nat := s.error_count

/-- Method `StreamAnalyzer::buffer_size`. -/
def buffer_size (s : StreamAnalyzer) : Nat := s.buffer.len

/-- Method `StreamAnalyzer::reset`. -/
def reset (s : StreamAnalyzer) : StreamAnalyzer :=
  { buffer := s.buffer.clear, total_tokens := 0, error_count := 0 }

end StreamAnalyzer

/-! ## Injection triggering (injector/triggers.rs)

`Instant` timestamps are `Int` milliseconds; `Instant::now()` at each call
site becomes an explicit `now` argument, and `elapsed` saturates at zero
(`Int.toNat`). -/

/-- Constant `MIN_INJECTION_INTERVAL_SECS`, converted to milliseconds. -/
def MIN_INJECTION_INTERVAL_MS : Nat := 5000

/-- Constant `MAX_PROMPT_REMINDERS`. -/
def MAX_PROMPT_REMINDERS : Nat := 3

/-- Struct `ContextInjector`. -/
structure ContextInjector where
  last_injection : Int
  min_interval : Nat
  suggestions_count : Nat
  prompt_reminder_count : Nat
  enabled : Bool
  recent_types : List SuggestionType
  deriving DecidableEq, Repr

namespace ContextInjector

/-- Constructor `ContextInjector::new` at creation time `now`
(`last_injection = now − 60 s` admits an immediate first injection). -/
def new (now : Int) : ContextInjector :=
  { last_injection := now - 60000,
    min_interval := MIN_INJECTION_INTERVAL_MS,
    suggestions_count := 0,
    prompt_reminder_count := 0,
    enabled := true,
    recent_types := [] }

/-- Constructor `ContextInjector::with_interval`. -/
def with_interval (now : Int) (interval_ms : Nat) : ContextInjector :=
  { new now with min_interval := interval_ms }

/-- Method `ContextInjector::set_enabled`. -/
def set_enabled (s : ContextInjector) (enabled : Bool) : ContextInjector :=
  { s with enabled := enabled }

/-- Method `ContextInjector::is_enabled`. -/
def is_enabled (s : ContextInjector) : Bool := s.enabled

/-- Method `ContextInjector::can_inject`:
`enabled && last_injection.elapsed() >= min_interval`. -/
def can_inject (s : ContextInjector) (now : Int) : Bool :=
  s.enabled && s.min_interval ≤ (now - s.last_injection).toNat

/-- Method `ContextInjector::was_recently_suggested`: membership in the
last three entries of `recent_types`. -/
def was_recently_suggested (s : ContextInjector) (t : SuggestionType) : Bool :=
  decide (t ∈ s.recent_types.reverse.take 3)

/-- Function `ContextInjector::is_code_file`: suffix match against the
fixed extension list. -/
def code_extensions : List String :=
  [".ts", ".tsx", ".js", ".jsx", ".py", ".rs", ".go", ".java", ".c", ".cpp",
   ".h", ".hpp", ".cs", ".rb", ".php", ".swift", ".kt", ".scala", ".ex", ".exs"]

/-- Rust `str::ends_with` over character lists. -/
def ends_with (path suffix : List Char) : Bool :=
  path.drop (path.length - suffix.length) == suffix

/-- Method `ContextInjector::is_code_file`. -/
def is_code_file (path : String) : Bool :=
  code_extensions.any (fun ext => ends_with path.data ext.data)

/-- Method `ContextInjector::should_inject` (read-only). -/
def should_inject (s : ContextInjector) (now : Int) (content_type : ContentType) : Bool :=
  can_inject s now &&
  match content_type with
  | .BuildError error_count _ =>
    decide (3 ≤ error_count) && !(was_recently_suggested s .BuildErrors)
  | .LargeOutput size =>
    decide (10000 < size) && !(was_recently_suggested s .LargeOutput)
  | .FileRead file_path =>
    is_code_file file_path && !(was_recently_suggested s .FileRead)
  | .PromptReady => decide (s.prompt_reminder_count < MAX_PROMPT_REMINDERS)
  | .Normal => false

/-- Method `ContextInjector::generate_suggestion` at call time `now`,
state-passing. -/
def generate_suggestion (s : ContextInjector) (now : Int) (content_type : ContentType) :
    Option Suggestion × ContextInjector :=
  if !(should_inject s now content_type) then (none, s)
  else
    let step : Option Suggestion × ContextInjector :=
      match content_type with
      | .BuildError error_count tool => (some (Suggestion.build_errors error_count tool), s)
      | .LargeOutput size => (some (Suggestion.large_output size), s)
      | .FileRead file_path =>
        if is_code_file file_path then (some (Suggestion.file_read file_path), s) else (none, s)
      | .PromptReady =>
        (some Suggestion.prompt_reminder,
         { s with prompt_reminder_count := s.prompt_reminder_count + 1 })
      | .Normal => (none, s)
    match step with
    | (some sg, s1) =>
      let rt := s1.recent_types ++ [sg.suggestion_type]
      (some sg,
       { s1 with
          last_injection := now,
          suggestions_count := s1.suggestions_count + 1,
          recent_types := if 10 < rt.length then rt.tail else rt })
    | (none, s1) => (none, s1)

/-- Method `ContextInjector::total_suggestions`. -/
def total_suggestions (s : ContextInjector) : Nat := s.suggestions_count

/-- Method `ContextInjector::prompt_reminders_used`. -/
def prompt_reminders_used (s : ContextInjector) : Nat := s.prompt_reminder_count

/-- Method `ContextInjector::reset` at reset time `now`. -/
def reset (s : ContextInjector) (now : Int) : ContextInjector :=
  { s with
     suggestions_count := 0,
     prompt_reminder_count := 0,
     recent_types := [],
     last_injection := now - 60000 }

end ContextInjector

/-- A sequence of `generate_suggestion` calls, each with its call time:
the list of produced results together with the final injector state. -/
def runInjector (s : ContextInjector) :
    List (Int × ContentType) → List (Option Suggestion) × ContextInjector
  | [] => ([], s)
  | (t, ct) :: rest =>
    let step := s.generate_suggestion t ct
    let tail := runInjector step.2 rest
    (step.1 :: tail.1, tail.2)

/-! ## Session facade (lib.rs, `napi_bindings`)

Only the components the claims mention are modelled: the analyzer, the
injector and the configuration.  The PTY manager, the raw byte channel and
the lock discipline are out of scope of every claim below; `read` is
modelled from the point where the PTY bytes have been decoded into
`raw_output`. -/

/-- Modelled from the spec: src/config.rs is declared by lib.rs but its
file is not among the sources.  Spec §3: `Config {injection_interval_ms,
suggestions_enabled}`; the defaults are taken to mirror the injector
defaults of spec §4.5 (5 s, suggestions on). -/
structure Config where
  injection_interval_ms : Nat
  suggestions_enabled : Bool
  deriving DecidableEq, Repr

/-- Modelled from the spec: default configuration (see `Config`). -/
def Config.default : Config :=
  { injection_interval_ms := 5000, suggestions_enabled := true }

/-- Struct `CtxOptSession`, restricted to the analyzer, the injector and
the config (the PTY handle and start instant are irrelevant to the claims
below). -/
structure CtxOptSession where
  analyzer : StreamAnalyzer
  injector : ContextInjector
  config : Config
  deriving DecidableEq, Repr

namespace CtxOptSession

/-- Constructor `CtxOptSession::new` at creation time `now` (the PTY
arguments `rows`, `cols`, `command` touch only the unmodelled PTY). -/
def new (now : Int) : CtxOptSession :=
  { analyzer := StreamAnalyzer.new,
    injector := ContextInjector.new now,
    config := Config.default }

/-- Factory `CtxOptSession::with_config`: build a default session, then
overwrite the config fields that were passed. -/
def with_config (now : Int) (injection_interval_ms : Option Nat)
    (suggestions_enabled : Option Bool) : CtxOptSession :=
  let s := new now
  let s :=
    match injection_interval_ms with
    | some interval => { s with config := { s.config with injection_interval_ms := interval } }
    | none => s
  match suggestions_enabled with
  | some enabled => { s with config := { s.config with suggestions_enabled := enabled } }
  | none => s

/-- Struct `ReadResult` (`detected_types` keeps the content types
themselves rather than their Debug rendering). -/
structure ReadResult where
  output : String
  clean_output : List Char
  suggestions : List String
  token_estimate : Nat
  detected_types : List ContentType
  total_size : Nat
  deriving DecidableEq, Repr

/-- The `filter_map(generate_suggestion)` fold of `read` over the detected
content types (all calls of one `read` share the call time `now`). -/
def genAll (inj : ContextInjector) (now : Int) :
    List ContentType → List Suggestion × ContextInjector
  | [] => ([], inj)
  | ct :: rest =>
    let step := inj.generate_suggestion now ct
    let tail := genAll step.2 now rest
    (match step.1 with
     | some sg => sg :: tail.1
     | none => tail.1, tail.2)

/-- Method `CtxOptSession::read`, from the point where the PTY bytes have
been decoded into `raw_output`: empty reads short-circuit, otherwise
analyze, then (when enabled) generate suggestions per detected type. -/
def read (sess : CtxOptSession) (now : Int) (raw_output : String) :
    ReadResult × CtxOptSession :=
  if raw_output = "" then
    ({ output := "", clean_output := [], suggestions := [],
       token_estimate := 0, detected_types := [], total_size := 0 }, sess)
  else
    let a := sess.analyzer.analyze raw_output
    let gen :=
      if sess.config.suggestions_enabled then
        genAll sess.injector now a.1.content_types
      else ([], sess.injector)
    ({ output := raw_output,
       clean_output := a.1.clean_text,
       suggestions := gen.1.map Suggestion.format_for_display,
       token_estimate := a.1.token_estimate,
       detected_types := a.1.content_types,
       total_size := a.1.total_size },
     { sess with analyzer := a.2, injector := gen.2 })

end CtxOptSession

/-- Utility `utils::strip_ansi` over strings (lib.rs). -/
def strip_ansi (text : String) : String := String.mk (stripAnsiList text.data)

/-! ## Specification-side definitions

These follow the words of the spec rather than the code; the refinement
theorems below compare them with the translated source. -/

/-- Spec §4.2 step 4a: the fixed priority order of build tools with each
tool's counting function ("try TypeScript, ESLint, Rust, Go, Python,
Generic"). -/
def toolOrder : List (BuildTool × (List Char → Nat)) :=
  [(.TypeScript, countMatches (fun _ s => runM typescriptErrorPat s)),
   (.ESLint, countMatches (fun _ s => runM eslintErrorPat s)),
   (.Rust, countMatches (fun _ s => runM rustErrorPat s)),
   (.Go, countMatches (fun _ s => runM goErrorPat s)),
   (.Python, countMatches (fun _ s => runM pythonErrorPat s)),
   (.Generic, countMatches (fun fl s => runM (genericErrorPat fl) s))]

/-- Spec §4.2 step 4a, "first match wins": the first tool in the priority
order whose pattern has at least one non-overlapping match, with its
count. -/
def specFirstBuildMatch (text : List Char) : Option (BuildTool × Nat) :=
  toolOrder.findSome? (fun p => if 0 < p.2 text then some (p.1, p.2 text) else none)

/-! # Theorems

Helper lemmas first, then one theorem per claim (with a witness or a
counterexample where required).
-/

/-! ## Ring buffer lemmas (claim C6) -/

theorem pushChar_capacity (b : RingBuffer) (ch : Char) :
    (b.pushChar ch).capacity = b.capacity := by
  unfold RingBuffer.pushChar
  split <;> rfl

theorem push_capacity (t : List Char) (b : RingBuffer) :
    (b.push t).capacity = b.capacity := by
  induction t generalizing b with
  | nil => rfl
  | cons c cs ih =>
    show ((b.pushChar c).push cs).capacity = b.capacity
    rw [ih, pushChar_capacity]

theorem pushChar_len_le (b : RingBuffer) (ch : Char)
    (hcap : 1 ≤ b.capacity) (hlen : b.data.length ≤ b.capacity) :
    (b.pushChar ch).data.length ≤ b.capacity := by
  unfold RingBuffer.pushChar
  have htail : b.data.tail.length = b.data.length - 1 := List.length_tail _
  split
  · next hfull =>
    show (b.data.tail ++ [ch]).length ≤ b.capacity
    simp only [List.length_append, List.length_cons, List.length_nil]
    omega
  · next hfull =>
    show (b.data ++ [ch]).length ≤ b.capacity
    simp only [List.length_append, List.length_cons, List.length_nil]
    omega

theorem push_len_le (t : List Char) (b : RingBuffer)
    (hcap : 1 ≤ b.capacity) (hlen : b.data.length ≤ b.capacity) :
    (b.push t).data.length ≤ b.capacity := by
  induction t generalizing b with
  | nil => exact hlen
  | cons c cs ih =>
    show ((b.pushChar c).push cs).data.length ≤ b.capacity
    have hc := pushChar_capacity b c
    have h := ih (b.pushChar c) (by rw [hc]; exact hcap)
      (by rw [hc]; exact pushChar_len_le b c hcap hlen)
    rw [hc] at h
    exact h

theorem runOps_len_le (ops : List BufOp) (b : RingBuffer)
    (hcap : 1 ≤ b.capacity) (hlen : b.data.length ≤ b.capacity) :
    (b.runOps ops).data.length ≤ b.capacity ∧ (b.runOps ops).capacity = b.capacity := by
  induction ops generalizing b with
  | nil => exact ⟨hlen, rfl⟩
  | cons op rest ih =>
    cases op with
    | pushOp t =>
      have hc := push_capacity t b
      have h := ih (b.push t) (by rw [hc]; exact hcap)
        (by rw [hc]; exact push_len_le t b hcap hlen)
      show ((b.push t).runOps rest).data.length ≤ b.capacity
        ∧ ((b.push t).runOps rest).capacity = b.capacity
      rw [← hc]
      exact h
    | clearOp =>
      have h := ih b.clear hcap (by simp [RingBuffer.clear])
      exact h
    | lastNOp n => exact ih b hcap hlen

theorem last_n_suffix (b : RingBuffer) (n : Nat) : b.last_n n <:+ b.data :=
  List.drop_suffix _ _

theorem last_n_length (b : RingBuffer) (n : Nat) :
    (b.last_n n).length = min n b.data.length := by
  simp only [RingBuffer.last_n, List.length_drop]
  omega

/-- C6: over every operation sequence on a buffer of capacity `C ≥ 1` the
length never exceeds `C`; a push step appends at the back, evicting exactly
one front character once full; and `last_n n` is the length-`min n len`
suffix of the content.  (The `C ≥ 1` bound is what the counterexample
forces: with capacity 0 the front eviction pops from an empty deque and the
buffer grows to length 1.) -/
theorem ring_buffer_ops_spec (C : Nat) (hC : 1 ≤ C) (ops : List BufOp)
    (b : RingBuffer) (ch : Char) (n : Nat) :
    ((RingBuffer.new C).runOps ops).data.length ≤ C
    ∧ (b.data.length < b.capacity → (b.pushChar ch).data = b.data ++ [ch])
    ∧ (b.capacity ≤ b.data.length → (b.pushChar ch).data = b.data.tail ++ [ch])
    ∧ b.last_n n <:+ b.data
    ∧ (b.last_n n).length = min n b.data.length := by
  refine ⟨(runOps_len_le ops (RingBuffer.new C) hC (by simp [RingBuffer.new])).1,
    ?_, ?_, last_n_suffix b n, last_n_length b n⟩
  · intro h
    unfold RingBuffer.pushChar
    rw [if_neg (by omega)]
  · intro h
    unfold RingBuffer.pushChar
    rw [if_pos h]

/-- C6, witness for `ring_buffer_ops_spec` at capacity 1. -/
theorem ring_buffer_ops_spec_witness :
    ((RingBuffer.new 1).runOps [BufOp.pushOp ['a', 'b']]).data.length ≤ 1
    ∧ (RingBuffer.pushChar ⟨['x'], 1⟩ 'y').data = ['x'].tail ++ ['y'] := by
  have h := ring_buffer_ops_spec 1 (by decide) [BufOp.pushOp ['a', 'b']] ⟨['x'], 1⟩ 'y' 1
  exact ⟨h.1, h.2.2.1 (by decide)⟩

/-- C6, counterexample: with capacity 0 one push already violates
`len ≤ C` (the source pops from an empty deque and still pushes). -/
theorem ring_buffer_capacity_zero_counterexample :
    ((RingBuffer.new 0).runOps [BufOp.pushOp ['a']]).data.length = 1
    ∧ ¬ (((RingBuffer.new 0).runOps [BufOp.pushOp ['a']]).data.length ≤ 0) := by
  decide

/-! ## ANSI stripping lemmas (claim C7) -/

theorem ansi_match_head_none (c : Char) (cs : List Char) (h : c ≠ '\x1b') :
    runM ansiEscapePat (c :: cs) = none := by
  have hb : (c == '\x1b') = false := by
    simp only [beq_eq_false_iff_ne, ne_eq]
    exact h
  simp [runM, ansiEscapePat, orK, charCS, charIf, hb]

theorem stripAux_of_no_esc (l : List Char) (h : ∀ c ∈ l, c ≠ '\x1b') :
    stripAux 0 l = l := by
  induction l with
  | nil => rfl
  | cons c cs ih =>
    have hc : c ≠ '\x1b' := h c (List.mem_cons_self c cs)
    have hcs : ∀ x ∈ cs, x ≠ '\x1b' := fun x hx => h x (List.mem_cons_of_mem c hx)
    simp only [stripAux, ansi_match_head_none c cs hc]
    rw [ih hcs]

/-- C7, amended: stripping is idempotent on every input whose stripped form
contains no ESC character (every ANSI match starts with ESC, so a clean
string is a fixed point); the counterexample shows the unconditional claim
fails. -/
theorem strip_ansi_idempotent_on_clean (x : String)
    (h : ∀ c ∈ (strip_ansi x).data, c ≠ '\x1b') :
    strip_ansi (strip_ansi x) = strip_ansi x := by
  show String.mk (stripAnsiList (stripAnsiList x.data)) = String.mk (stripAnsiList x.data)
  have : stripAnsiList (stripAnsiList x.data) = stripAnsiList x.data :=
    stripAux_of_no_esc _ h
  rw [this]

/-- C7, witness for `strip_ansi_idempotent_on_clean`. -/
theorem strip_ansi_idempotent_on_clean_witness :
    strip_ansi (strip_ansi "\x1b[31mError\x1b[0m boom") = strip_ansi "\x1b[31mError\x1b[0m boom" :=
  strip_ansi_idempotent_on_clean "\x1b[31mError\x1b[0m boom" (by decide)

/-- C7, counterexample: removing a complete escape sequence can splice the
two halves of a broken one into a new match, so a second pass strips
more. -/
theorem strip_ansi_not_idempotent_counterexample :
    strip_ansi "\x1b[3\x1b[0m1m" = "\x1b[31m"
    ∧ strip_ansi (strip_ansi "\x1b[3\x1b[0m1m") = ""
    ∧ strip_ansi (strip_ansi "\x1b[3\x1b[0m1m") ≠ strip_ansi "\x1b[3\x1b[0m1m" := by
  decide

/-! ## Code-file suffix lemmas (claim C8) -/

theorem ends_with_iff_suffix (l s : List Char) :
    ContextInjector.ends_with l s = true ↔ s <:+ l := by
  unfold ContextInjector.ends_with
  rw [beq_iff_eq, List.suffix_iff_eq_drop, eq_comm]

theorem suffix_of_drop_iff (l s : List Char) (k : Nat)
    (hs : s.length ≤ k) (hk : k ≤ l.length) :
    s <:+ l ↔ s <:+ l.drop (l.length - k) := by
  constructor
  · intro h
    have he : s = l.drop (l.length - s.length) := List.suffix_iff_eq_drop.mp h
    have : (l.drop (l.length - k)).drop (k - s.length) = l.drop (l.length - s.length) := by
      rw [List.drop_drop]
      congr 1
      omega
    rw [he, ← this]
    exact List.drop_suffix _ _
  · intro h
    exact h.trans (List.drop_suffix _ _)

theorem list_any_congr {α : Type} (L : List α) (p q : α → Bool)
    (h : ∀ a ∈ L, p a = q a) : L.any p = L.any q := by
  induction L with
  | nil => rfl
  | cons a as ih =>
    simp only [List.any_cons]
    rw [h a (List.mem_cons_self a as), ih (fun x hx => h x (List.mem_cons_of_mem a hx))]

theorem code_extensions_short :
    ∀ e ∈ ContextInjector.code_extensions, e.data.length ≤ 6 := by
  decide

theorem is_code_file_of_six_suffix (p : String) (hp : 6 ≤ p.data.length) :
    ContextInjector.is_code_file p =
      ContextInjector.code_extensions.any
        (fun e => ContextInjector.ends_with (p.data.drop (p.data.length - 6)) e.data) := by
  unfold ContextInjector.is_code_file
  apply list_any_congr
  intro e he
  have hlen := code_extensions_short e he
  rw [Bool.eq_iff_iff, ends_with_iff_suffix, ends_with_iff_suffix]
  exact suffix_of_drop_iff p.data e.data 6 hlen hp

/-- C8, amended: `is_code_file` is a pure function of the path's
case-sensitive suffix — it returns true exactly when the path itself ends
with one of the fixed (lowercase) extensions, and any two paths sharing
their last six characters agree; lowercasing is not applied, so case
variants may differ (see the counterexample). -/
theorem is_code_file_suffix_spec (p q : String)
    (hp : 6 ≤ p.data.length) (hq : 6 ≤ q.data.length)
    (h : p.data.drop (p.data.length - 6) = q.data.drop (q.data.length - 6)) :
    (ContextInjector.is_code_file p = true ↔
      ∃ ext ∈ ContextInjector.code_extensions, ext.data <:+ p.data)
    ∧ ContextInjector.is_code_file p = ContextInjector.is_code_file q := by
  constructor
  · unfold ContextInjector.is_code_file
    rw [List.any_eq_true]
    constructor
    · rintro ⟨e, he, hw⟩
      exact ⟨e, he, (ends_with_iff_suffix p.data e.data).mp hw⟩
    · rintro ⟨e, he, hw⟩
      exact ⟨e, he, (ends_with_iff_suffix p.data e.data).mpr hw⟩
  · rw [is_code_file_of_six_suffix p hp, is_code_file_of_six_suffix q hq, h]

/-- C8, witness for `is_code_file_suffix_spec`. -/
theorem is_code_file_suffix_spec_witness :
    ContextInjector.is_code_file "main.ts" = ContextInjector.is_code_file "/ain.ts" :=
  (is_code_file_suffix_spec "main.ts" "/ain.ts" (by decide) (by decide) (by decide)).2

/-- C8, counterexample: two paths with the same lowercase suffix on which
`is_code_file` differs — the source compares case-sensitively and never
lowercases. -/
theorem is_code_file_case_counterexample :
    ContextInjector.is_code_file "a.ts" = true
    ∧ ContextInjector.is_code_file "a.TS" = false
    ∧ "a.TS".data.map Char.toLower = "a.ts".data.map Char.toLower := by
  decide

/-! ## Injector step lemmas (claims C2, C3, C10) -/

theorem gen_none_state (s : ContextInjector) (now : Int) (ct : ContentType)
    (h : (s.generate_suggestion now ct).1 = none) :
    (s.generate_suggestion now ct).2 = s := by
  unfold ContextInjector.generate_suggestion at h ⊢
  by_cases hsi : ContextInjector.should_inject s now ct
  · rw [if_neg (by simp [hsi])] at h ⊢
    cases ct with
    | BuildError c tool => simp at h
    | LargeOutput size => simp at h
    | FileRead p =>
      have hcode : ContextInjector.is_code_file p = true := by
        have h2 := hsi
        unfold ContextInjector.should_inject at h2
        simp only [Bool.and_eq_true] at h2
        exact h2.2.1
      simp [hcode] at h
    | PromptReady => simp at h
    | Normal => rfl
  · rw [if_pos (by simp [hsi])]

/-- C10: whenever `generate_suggestion` returns no suggestion the injector
state is left exactly as it was — no counter, timestamp or history
changes. -/
theorem generate_suggestion_none_frame (s : ContextInjector) (now : Int) (ct : ContentType)
    (h : (s.generate_suggestion now ct).1 = none) :
    (s.generate_suggestion now ct).2 = s :=
  gen_none_state s now ct h

/-- C10, witness for `generate_suggestion_none_frame`. -/
theorem generate_suggestion_none_frame_witness :
    ((ContextInjector.new 0).generate_suggestion 0 ContentType.Normal).2 = ContextInjector.new 0 :=
  generate_suggestion_none_frame (ContextInjector.new 0) 0 ContentType.Normal (by decide)

theorem should_inject_can (s : ContextInjector) (now : Int) (ct : ContentType)
    (h : ContextInjector.should_inject s now ct = true) :
    ContextInjector.can_inject s now = true := by
  unfold ContextInjector.should_inject at h
  exact ((Bool.and_eq_true _ _).mp h).1

theorem gen_min_interval_eq (s : ContextInjector) (now : Int) (ct : ContentType) :
    (s.generate_suggestion now ct).2.min_interval = s.min_interval := by
  unfold ContextInjector.generate_suggestion
  by_cases hsi : ContextInjector.should_inject s now ct
  · rw [if_neg (by simp [hsi])]
    cases ct with
    | BuildError c tool => rfl
    | LargeOutput size => rfl
    | FileRead p =>
      by_cases hcode : ContextInjector.is_code_file p
      · simp [hcode]
      · simp [hcode]
    | PromptReady => rfl
    | Normal => rfl
  · rw [if_pos (by simp [hsi])]

theorem gen_some_last (s : ContextInjector) (now : Int) (ct : ContentType) (u : Suggestion)
    (h : (s.generate_suggestion now ct).1 = some u) :
    (s.generate_suggestion now ct).2.last_injection = now := by
  unfold ContextInjector.generate_suggestion at h ⊢
  by_cases hsi : ContextInjector.should_inject s now ct
  · rw [if_neg (by simp [hsi])] at h ⊢
    cases ct with
    | BuildError c tool => rfl
    | LargeOutput size => rfl
    | FileRead p =>
      by_cases hcode : ContextInjector.is_code_file p
      · simp [hcode]
      · simp [hcode] at h
    | PromptReady => rfl
    | Normal => simp at h
  · rw [if_pos (by simp [hsi])] at h
    simp at h

theorem gen_some_elapsed (s : ContextInjector) (now : Int) (ct : ContentType) (u : Suggestion)
    (h : (s.generate_suggestion now ct).1 = some u) :
    s.min_interval ≤ (now - s.last_injection).toNat := by
  have hsi : ContextInjector.should_inject s now ct = true := by
    by_contra hn
    rw [Bool.not_eq_true] at hn
    unfold ContextInjector.generate_suggestion at h
    rw [if_pos (by simp [hn])] at h
    simp at h
  have hc := should_inject_can s now ct hsi
  unfold ContextInjector.can_inject at hc
  simp only [Bool.and_eq_true, decide_eq_true_eq] at hc
  exact hc.2

theorem gen_last_lb (s : ContextInjector) (now : Int) (ct : ContentType) (t1 : Int)
    (hs : t1 ≤ s.last_injection) (hn : t1 ≤ now) :
    t1 ≤ (s.generate_suggestion now ct).2.last_injection := by
  cases h : (s.generate_suggestion now ct).1 with
  | none => rw [gen_none_state s now ct h]; exact hs
  | some u => rw [gen_some_last s now ct u h]; exact hn

theorem run_min_interval_eq (calls : List (Int × ContentType)) (s : ContextInjector) :
    (runInjector s calls).2.min_interval = s.min_interval := by
  induction calls generalizing s with
  | nil => rfl
  | cons c rest ih =>
    obtain ⟨t, ct⟩ := c
    show (runInjector (s.generate_suggestion t ct).2 rest).2.min_interval = s.min_interval
    rw [ih, gen_min_interval_eq]

theorem run_last_lb (calls : List (Int × ContentType)) (s : ContextInjector) (t1 : Int)
    (hmid : ∀ p ∈ calls, t1 ≤ p.1) (hs : t1 ≤ s.last_injection) :
    t1 ≤ (runInjector s calls).2.last_injection := by
  induction calls generalizing s with
  | nil => exact hs
  | cons c rest ih =>
    obtain ⟨t, ct⟩ := c
    show t1 ≤ (runInjector (s.generate_suggestion t ct).2 rest).2.last_injection
    exact ih _ (fun p hp => hmid p (List.mem_cons_of_mem _ hp))
      (gen_last_lb s t ct t1 hs (hmid (t, ct) (List.mem_cons_self _ _)))

/-- C2: along any sequence of `generate_suggestion` calls with
non-decreasing call times, two produced suggestions are at least
`min_interval` apart; and a call strictly inside the throttle window of the
last injection yields nothing. -/
theorem min_interval_between_suggestions
    (s0 sN : ContextInjector) (pre mid : List (Int × ContentType))
    (t1 t2 tN : Int) (c1 c2 cN : ContentType) (u v : Suggestion)
    (hmid : ∀ p ∈ mid, t1 ≤ p.1) (h12 : t1 ≤ t2)
    (h1 : ((runInjector s0 pre).2.generate_suggestion t1 c1).1 = some u)
    (h2 : ((runInjector ((runInjector s0 pre).2.generate_suggestion t1 c1).2 mid).2.generate_suggestion t2 c2).1 = some v)
    (hN : (tN - sN.last_injection).toNat < sN.min_interval) :
    (s0.min_interval : Int) ≤ t2 - t1 ∧ (sN.generate_suggestion tN cN).1 = none := by
  constructor
  · have hlast2 : ((runInjector s0 pre).2.generate_suggestion t1 c1).2.last_injection = t1 :=
      gen_some_last _ t1 c1 u h1
    have hlast3 : t1 ≤
        (runInjector ((runInjector s0 pre).2.generate_suggestion t1 c1).2 mid).2.last_injection :=
      run_last_lb mid _ t1 hmid (le_of_eq hlast2.symm)
    have helap := gen_some_elapsed _ t2 c2 v h2
    have hm3 :
        (runInjector ((runInjector s0 pre).2.generate_suggestion t1 c1).2 mid).2.min_interval
          = s0.min_interval := by
      rw [run_min_interval_eq, gen_min_interval_eq, run_min_interval_eq]
    rw [hm3] at helap
    omega
  · cases h : (sN.generate_suggestion tN cN).1 with
    | none => rfl
    | some w =>
      have := gen_some_elapsed sN tN cN w h
      omega

/-- C2, witness for `min_interval_between_suggestions`. -/
theorem min_interval_between_suggestions_witness :
    ((ContextInjector.with_interval 0 10).min_interval : Int) ≤ 10 - 0
    ∧ (({ ContextInjector.new 0 with last_injection := 0, min_interval := 10 } :
        ContextInjector).generate_suggestion 5 (ContentType.LargeOutput 20000)).1 = none :=
  min_interval_between_suggestions
    (ContextInjector.with_interval 0 10)
    { ContextInjector.new 0 with last_injection := 0, min_interval := 10 }
    [] [] 0 10 5 (ContentType.LargeOutput 20000) (ContentType.BuildError 5 BuildTool.Rust)
    (ContentType.LargeOutput 20000) (Suggestion.large_output 20000)
    (Suggestion.build_errors 5 BuildTool.Rust)
    (by simp) (by decide) (by decide) (by decide) (by decide)

theorem gen_prompt_le (s : ContextInjector) (now : Int) (ct : ContentType)
    (h : s.prompt_reminder_count ≤ 3) :
    (s.generate_suggestion now ct).2.prompt_reminder_count ≤ 3 := by
  unfold ContextInjector.generate_suggestion
  by_cases hsi : ContextInjector.should_inject s now ct
  · rw [if_neg (by simp [hsi])]
    cases ct with
    | BuildError c tool => exact h
    | LargeOutput size => exact h
    | FileRead p =>
      by_cases hcode : ContextInjector.is_code_file p
      · simp only [hcode]
        exact h
      · simp only [hcode]
        exact h
    | PromptReady =>
      have hlt : s.prompt_reminder_count < 3 := by
        have h2 := hsi
        unfold ContextInjector.should_inject at h2
        simp only [Bool.and_eq_true, decide_eq_true_eq, MAX_PROMPT_REMINDERS] at h2
        exact h2.2
      show s.prompt_reminder_count + 1 ≤ 3
      omega
    | Normal => exact h
  · rw [if_pos (by simp [hsi])]
    exact h

theorem run_prompt_le (calls : List (Int × ContentType)) (s : ContextInjector)
    (h : s.prompt_reminder_count ≤ 3) :
    (runInjector s calls).2.prompt_reminder_count ≤ 3 := by
  induction calls generalizing s with
  | nil => exact h
  | cons c rest ih =>
    obtain ⟨t, ct⟩ := c
    show (runInjector (s.generate_suggestion t ct).2 rest).2.prompt_reminder_count ≤ 3
    exact ih _ (gen_prompt_le s t ct h)

/-- C3: the prompt-reminder counter never exceeds 3 along any call sequence
(without a reset), and the concrete five-call scenario with
`min_interval = 1 ms` and 2 ms spacing produces Some, Some, Some, None,
None, ending at exactly 3 reminders used. -/
theorem prompt_reminder_cap (s0 : ContextInjector) (calls : List (Int × ContentType))
    (h : s0.prompt_reminder_count ≤ 3) :
    (runInjector s0 calls).2.prompt_reminders_used ≤ 3
    ∧ ((runInjector (ContextInjector.with_interval 0 1)
          [(0, ContentType.PromptReady), (2, ContentType.PromptReady),
           (4, ContentType.PromptReady), (6, ContentType.PromptReady),
           (8, ContentType.PromptReady)]).1.map Option.isSome
        = [true, true, true, false, false]
      ∧ (runInjector (ContextInjector.with_interval 0 1)
          [(0, ContentType.PromptReady), (2, ContentType.PromptReady),
           (4, ContentType.PromptReady), (6, ContentType.PromptReady),
           (8, ContentType.PromptReady)]).2.prompt_reminders_used = 3) :=
  ⟨run_prompt_le calls s0 h, by decide, by decide⟩

/-- C3, witness for `prompt_reminder_cap`. -/
theorem prompt_reminder_cap_witness :
    (runInjector (ContextInjector.new 0) []).2.prompt_reminders_used ≤ 3 :=
  (prompt_reminder_cap (ContextInjector.new 0) [] (by decide)).1

/-! ## Session configuration (claim C9) -/

/-- C9: `with_config` stores `injection_interval_ms` only in the session
config — the injector keeps the default `min_interval` of 5 s, the
constructed injector does not depend on the passed interval at all, and
`read` behaves identically on sessions differing only in that config
field. -/
theorem with_config_interval_frame :
    (∀ (now : Int) (iv : Nat) (en : Option Bool),
      (CtxOptSession.with_config now (some iv) en).injector.min_interval = MIN_INJECTION_INTERVAL_MS
      ∧ (CtxOptSession.with_config now (some iv) en).config.injection_interval_ms = iv)
    ∧ (∀ (now : Int) (iv1 iv2 : Option Nat) (en : Option Bool),
      (CtxOptSession.with_config now iv1 en).injector
        = (CtxOptSession.with_config now iv2 en).injector)
    ∧ (∀ (sess : CtxOptSession) (iv : Nat) (now : Int) (raw : String),
      (({ sess with config := { sess.config with injection_interval_ms := iv } } :
          CtxOptSession).read now raw).1 = (sess.read now raw).1
      ∧ (({ sess with config := { sess.config with injection_interval_ms := iv } } :
          CtxOptSession).read now raw).2.injector = (sess.read now raw).2.injector
      ∧ (({ sess with config := { sess.config with injection_interval_ms := iv } } :
          CtxOptSession).read now raw).2.analyzer = (sess.read now raw).2.analyzer) := by
  refine ⟨?_, ?_, ?_⟩
  · intro now iv en
    cases en <;> exact ⟨rfl, rfl⟩
  · intro now iv1 iv2 en
    cases iv1 <;> cases iv2 <;> cases en <;> rfl
  · intro sess iv now raw
    unfold CtxOptSession.read
    by_cases hr : raw = ""
    · rw [if_pos hr, if_pos hr]
      exact ⟨rfl, rfl, rfl⟩
    · rw [if_neg hr, if_neg hr]
      exact ⟨rfl, rfl, rfl⟩

/-! ## Build-error detection order (claim C5) -/

theorem detect_build_errors_eq_spec (ec : Nat) (text : List Char) :
    StreamAnalyzer.detect_build_errors ec text =
      match specFirstBuildMatch text with
      | some (tool, c) => (some (ContentType.BuildError c tool), ec + c)
      | none => (none, ec) := by
  simp only [StreamAnalyzer.detect_build_errors, specFirstBuildMatch, toolOrder]
  split_ifs with h1 h2 h3 h4 h5 h6 <;> simp_all [List.findSome?]

/-- C5: build-error detection tries TypeScript, ESLint, Rust, Go, Python,
Generic in that fixed order and stops at the first pattern with a positive
non-overlapping match count in the ANSI-stripped chunk; `analyze` adds
exactly that count (or zero) to the cumulative error counter. -/
theorem detect_build_errors_first_match_spec (ec : Nat) (text : List Char)
    (s : StreamAnalyzer) (chunk : String) :
    (StreamAnalyzer.detect_build_errors ec text =
      match specFirstBuildMatch text with
      | some (tool, c) => (some (ContentType.BuildError c tool), ec + c)
      | none => (none, ec))
    ∧ (s.analyze chunk).2.error_count =
        s.error_count +
          (match specFirstBuildMatch (StreamAnalyzer.strip_ansi chunk.data) with
           | some (_, c) => c
           | none => 0) := by
  refine ⟨detect_build_errors_eq_spec ec text, ?_⟩
  show (StreamAnalyzer.detect_build_errors s.error_count
      (StreamAnalyzer.strip_ansi chunk.data)).2 = _
  rw [detect_build_errors_eq_spec]
  cases specFirstBuildMatch (StreamAnalyzer.strip_ansi chunk.data) with
  | none => simp
  | some p =>
    obtain ⟨tool, c⟩ := p
    simp

/-! ## Analysis result structure (claim C4) -/

theorem detect_build_errors_shape (ec : Nat) (text : List Char) (v : ContentType)
    (h : (StreamAnalyzer.detect_build_errors ec text).1 = some v) :
    ∃ c tool, v = ContentType.BuildError c tool := by
  rw [detect_build_errors_eq_spec] at h
  cases hs : specFirstBuildMatch text with
  | none => rw [hs] at h; simp at h
  | some p =>
    obtain ⟨tool, c⟩ := p
    rw [hs] at h
    simp at h
    exact ⟨c, tool, h.symm⟩

theorem detect_file_read_shape (text : List Char) (v : ContentType)
    (h : StreamAnalyzer.detect_file_read text = some v) :
    ∃ p, v = ContentType.FileRead p := by
  unfold StreamAnalyzer.detect_file_read at h
  cases hc : findCaptureAux text with
  | none => rw [hc] at h; simp at h
  | some cap =>
    rw [hc] at h
    simp at h
    exact ⟨String.mk cap, h.symm⟩

/-- C4: every analysis returns a non-empty category list; the list equals
exactly `[Normal]` precisely when no build-error, file-read, large-output
or prompt-ready detector fired; and `total_size` is the ring-buffer length
after the call — zero whenever `PromptReady` was detected, since detection
clears the buffer. -/
theorem analyze_content_types_spec (s : StreamAnalyzer) (chunk : String) :
    ((s.analyze chunk).1.content_types ≠ [])
    ∧ ((s.analyze chunk).1.content_types = [ContentType.Normal] ↔
        ((StreamAnalyzer.detect_build_errors s.error_count
            (StreamAnalyzer.strip_ansi chunk.data)).1 = none
         ∧ StreamAnalyzer.detect_file_read (StreamAnalyzer.strip_ansi chunk.data) = none
         ∧ ¬ (LARGE_OUTPUT_THRESHOLD <
              (s.buffer.push (StreamAnalyzer.strip_ansi chunk.data)).len)
         ∧ StreamAnalyzer.detect_prompt_ready
             (s.buffer.push (StreamAnalyzer.strip_ansi chunk.data))
             (StreamAnalyzer.strip_ansi chunk.data) = false))
    ∧ (s.analyze chunk).1.total_size = (s.analyze chunk).2.buffer.len
    ∧ (ContentType.PromptReady ∈ (s.analyze chunk).1.content_types →
        (s.analyze chunk).1.total_size = 0) := by
  simp only [StreamAnalyzer.analyze]
  cases hb : (StreamAnalyzer.detect_build_errors s.error_count
      (StreamAnalyzer.strip_ansi chunk.data)).1 with
  | some v =>
    obtain ⟨c₀, tool₀, rfl⟩ := detect_build_errors_shape _ _ v hb
    cases hf : StreamAnalyzer.detect_file_read (StreamAnalyzer.strip_ansi chunk.data) with
    | some w =>
      obtain ⟨p₀, rfl⟩ := detect_file_read_shape _ w hf
      by_cases hl : LARGE_OUTPUT_THRESHOLD <
          (s.buffer.push (StreamAnalyzer.strip_ansi chunk.data)).len <;>
        cases hp : StreamAnalyzer.detect_prompt_ready
            (s.buffer.push (StreamAnalyzer.strip_ansi chunk.data))
            (StreamAnalyzer.strip_ansi chunk.data) <;>
          (simp [hb, hf, hl, hp]; try rfl)
    | none =>
      by_cases hl : LARGE_OUTPUT_THRESHOLD <
          (s.buffer.push (StreamAnalyzer.strip_ansi chunk.data)).len <;>
        cases hp : StreamAnalyzer.detect_prompt_ready
            (s.buffer.push (StreamAnalyzer.strip_ansi chunk.data))
            (StreamAnalyzer.strip_ansi chunk.data) <;>
          (simp [hb, hf, hl, hp]; try rfl)
  | none =>
    cases hf : StreamAnalyzer.detect_file_read (StreamAnalyzer.strip_ansi chunk.data) with
    | some w =>
      obtain ⟨p₀, rfl⟩ := detect_file_read_shape _ w hf
      by_cases hl : LARGE_OUTPUT_THRESHOLD <
          (s.buffer.push (StreamAnalyzer.strip_ansi chunk.data)).len <;>
        cases hp : StreamAnalyzer.detect_prompt_ready
            (s.buffer.push (StreamAnalyzer.strip_ansi chunk.data))
            (StreamAnalyzer.strip_ansi chunk.data) <;>
          (simp [hb, hf, hl, hp]; try rfl)
    | none =>
      by_cases hl : LARGE_OUTPUT_THRESHOLD <
          (s.buffer.push (StreamAnalyzer.strip_ansi chunk.data)).len <;>
        cases hp : StreamAnalyzer.detect_prompt_ready
            (s.buffer.push (StreamAnalyzer.strip_ansi chunk.data))
            (StreamAnalyzer.strip_ansi chunk.data) <;>
          (simp [hb, hf, hl, hp]; try rfl)

/-- C4, witness for `analyze_content_types_spec`: a prompt chunk on a fresh
analyzer. -/
theorem analyze_content_types_spec_witness :
    (StreamAnalyzer.new.analyze "❯").1.content_types ≠ []
    ∧ (StreamAnalyzer.new.analyze "❯").1.total_size = 0 := by
  have h := analyze_content_types_spec StreamAnalyzer.new "❯"
  exact ⟨h.1, h.2.2.2 (by decide)⟩

/-! ## The large-output scenario (claim C1)

Every pattern of the catalog fails on a block of `'x'` characters, because
no alternative starts with `'x'`; the lemmas below push that through the
scanning loops to evaluate `analyze` on `"x".repeat(n)` symbolically. -/

theorem runM_none (pat : K) (s : List Char) (h : pat s = none) : runM pat s = none := by
  simp [runM, h]

theorem typescript_head_x (cs : List Char) : typescriptErrorPat ('x' :: cs) = none := rfl

theorem eslint_head_x (cs : List Char) : eslintErrorPat ('x' :: cs) = none := rfl

theorem rust_head_x (cs : List Char) : rustErrorPat ('x' :: cs) = none := rfl

theorem go_head_x (cs : List Char) : goErrorPat ('x' :: cs) = none := rfl

theorem python_head_x (cs : List Char) : pythonErrorPat ('x' :: cs) = none := rfl

theorem generic_head_x (fl : Bool) (cs : List Char) : genericErrorPat fl ('x' :: cs) = none := by
  cases fl <;> rfl

theorem prompt_head_x (cs : List Char) : promptReadyPat ('x' :: cs) = none := rfl

theorem fileread_head_x (cs : List Char) : fileReadPat ('x' :: cs) = none := rfl

theorem countAux_replicate_x (m : Bool → List Char → Option Nat)
    (h : ∀ fl cs, m fl ('x' :: cs) = none) (n : Nat) (fl : Bool) :
    countAux m 0 fl (List.replicate n 'x') = 0 := by
  induction n generalizing fl with
  | zero => rfl
  | succ k ih =>
    rw [List.replicate_succ]
    show countAux m 0 fl ('x' :: List.replicate k 'x') = 0
    simp only [countAux, h]
    exact ih false

theorem count_ts_replicate_x (n : Nat) :
    countMatches (fun _ s => runM typescriptErrorPat s) (List.replicate n 'x') = 0 :=
  countAux_replicate_x _ (fun _ cs => runM_none _ _ (typescript_head_x cs)) n true

theorem count_eslint_replicate_x (n : Nat) :
    countMatches (fun _ s => runM eslintErrorPat s) (List.replicate n 'x') = 0 :=
  countAux_replicate_x _ (fun _ cs => runM_none _ _ (eslint_head_x cs)) n true

theorem count_rust_replicate_x (n : Nat) :
    countMatches (fun _ s => runM rustErrorPat s) (List.replicate n 'x') = 0 :=
  countAux_replicate_x _ (fun _ cs => runM_none _ _ (rust_head_x cs)) n true

theorem count_go_replicate_x (n : Nat) :
    countMatches (fun _ s => runM goErrorPat s) (List.replicate n 'x') = 0 :=
  countAux_replicate_x _ (fun _ cs => runM_none _ _ (go_head_x cs)) n true

theorem count_python_replicate_x (n : Nat) :
    countMatches (fun _ s => runM pythonErrorPat s) (List.replicate n 'x') = 0 :=
  countAux_replicate_x _ (fun _ cs => runM_none _ _ (python_head_x cs)) n true

theorem count_generic_replicate_x (n : Nat) :
    countMatches (fun fl s => runM (genericErrorPat fl) s) (List.replicate n 'x') = 0 :=
  countAux_replicate_x _ (fun fl cs => runM_none _ _ (generic_head_x fl cs)) n true

theorem specFirstBuildMatch_replicate_x (n : Nat) :
    specFirstBuildMatch (List.replicate n 'x') = none := by
  unfold specFirstBuildMatch toolOrder
  simp [List.findSome?, count_ts_replicate_x n, count_eslint_replicate_x n,
    count_rust_replicate_x n, count_go_replicate_x n, count_python_replicate_x n,
    count_generic_replicate_x n]

theorem detect_build_errors_replicate_x (ec n : Nat) :
    StreamAnalyzer.detect_build_errors ec (List.replicate n 'x') = (none, ec) := by
  rw [detect_build_errors_eq_spec, specFirstBuildMatch_replicate_x n]

theorem findCaptureAux_replicate_x (n : Nat) :
    findCaptureAux (List.replicate n 'x') = none := by
  induction n with
  | zero => rfl
  | succ k ih =>
    rw [List.replicate_succ]
    show findCaptureAux ('x' :: List.replicate k 'x') = none
    simp only [findCaptureAux, fileread_head_x]
    exact ih

theorem detect_file_read_replicate_x (n : Nat) :
    StreamAnalyzer.detect_file_read (List.replicate n 'x') = none := by
  unfold StreamAnalyzer.detect_file_read
  rw [findCaptureAux_replicate_x n]
  rfl

theorem existsMatch_prompt_replicate_x (n : Nat) :
    existsMatch (fun s => (promptReadyPat s).isSome) (List.replicate n 'x') = false := by
  induction n with
  | zero => rfl
  | succ k ih =>
    rw [List.replicate_succ]
    show ((promptReadyPat ('x' :: List.replicate k 'x')).isSome
      || existsMatch (fun s => (promptReadyPat s).isSome) (List.replicate k 'x')) = false
    rw [prompt_head_x, ih]
    rfl

theorem strip_replicate_x (n : Nat) :
    stripAnsiList (List.replicate n 'x') = List.replicate n 'x' := by
  apply stripAux_of_no_esc
  intro c hc
  rw [List.eq_of_mem_replicate hc]
  decide

theorem push_data_of_room (t : List Char) (b : RingBuffer)
    (h : b.data.length + t.length ≤ b.capacity) :
    (b.push t).data = b.data ++ t := by
  induction t generalizing b with
  | nil => simp [RingBuffer.push]
  | cons c cs ih =>
    show ((b.pushChar c).push cs).data = b.data ++ (c :: cs)
    simp only [List.length_cons] at h
    have hpc : (b.pushChar c).data = b.data ++ [c] := by
      unfold RingBuffer.pushChar
      rw [if_neg (by omega)]
    have harg : (b.pushChar c).data.length + cs.length ≤ (b.pushChar c).capacity := by
      rw [pushChar_capacity, hpc]
      simp only [List.length_append, List.length_cons, List.length_nil]
      omega
    rw [ih (b.pushChar c) harg, hpc]
    simp

theorem analyze_replicate_x (n : Nat) (h5 : 5000 < n) (h50 : n ≤ 50000) :
    (StreamAnalyzer.new.analyze (String.mk (List.replicate n 'x'))).1.content_types
      = [ContentType.LargeOutput n]
    ∧ (StreamAnalyzer.new.analyze (String.mk (List.replicate n 'x'))).1.total_size = n := by
  have hclean : StreamAnalyzer.strip_ansi (List.replicate n 'x') = List.replicate n 'x' :=
    strip_replicate_x n
  have hbuf : ((RingBuffer.new BUFFER_CAPACITY).push (List.replicate n 'x')).data
      = List.replicate n 'x' := by
    have := push_data_of_room (List.replicate n 'x') (RingBuffer.new BUFFER_CAPACITY)
      (by simp [RingBuffer.new, BUFFER_CAPACITY]; omega)
    simpa [RingBuffer.new] using this
  have hlen : ((RingBuffer.new BUFFER_CAPACITY).push (List.replicate n 'x')).len = n := by
    simp [RingBuffer.len, hbuf]
  have hprompt : StreamAnalyzer.detect_prompt_ready
      ((RingBuffer.new BUFFER_CAPACITY).push (List.replicate n 'x'))
      (List.replicate n 'x') = false := by
    unfold StreamAnalyzer.detect_prompt_ready
    rw [RingBuffer.last_n, hbuf]
    simp [List.drop_replicate, existsMatch_prompt_replicate_x]
  constructor <;>
    simp [StreamAnalyzer.analyze, StreamAnalyzer.new, hclean, hbuf, hlen, hprompt,
      detect_build_errors_replicate_x, detect_file_read_replicate_x,
      LARGE_OUTPUT_THRESHOLD, h5, RingBuffer.len]

/-- C1, counterexample: `analyze("x".repeat(10_000))` on a fresh analyzer
does report `LargeOutput{size: 10_000}`, but the injector with
`min_interval = 10 ms` then returns `None` even on the first call — the
injection policy requires `size > 10_000` strictly, and 10 000 is not
greater than 10 000 — so no `LargeOutput` suggestion is emitted. -/
theorem large_output_threshold_counterexample :
    (StreamAnalyzer.new.analyze (String.mk (List.replicate 10000 'x'))).1.content_types
      = [ContentType.LargeOutput 10000]
    ∧ ((ContextInjector.with_interval 0 10).generate_suggestion 0
        (ContentType.LargeOutput 10000)).1 = none :=
  ⟨(analyze_replicate_x 10000 (by omega) (by omega)).1, by decide⟩

/-- C1, amended: `analyze("x".repeat(10_000))` reports
`LargeOutput{size: 10_000}` but the injector emits nothing for it, since
`should_inject` requires `size > 10_000` strictly; with 10 001 characters
the stated behaviour holds — one `LargeOutput` suggestion, and an
immediately repeated identical call returns `None` (throttle and
`recent_types`). -/
theorem large_output_scenario_amended :
    (StreamAnalyzer.new.analyze (String.mk (List.replicate 10000 'x'))).1.content_types
      = [ContentType.LargeOutput 10000]
    ∧ ((ContextInjector.with_interval 0 10).generate_suggestion 0
        (ContentType.LargeOutput 10000)).1 = none
    ∧ (StreamAnalyzer.new.analyze (String.mk (List.replicate 10001 'x'))).1.content_types
      = [ContentType.LargeOutput 10001]
    ∧ (((ContextInjector.with_interval 0 10).generate_suggestion 0
        (ContentType.LargeOutput 10001)).1).map Suggestion.suggestion_type
      = some SuggestionType.LargeOutput
    ∧ ((((ContextInjector.with_interval 0 10).generate_suggestion 0
        (ContentType.LargeOutput 10001)).2).generate_suggestion 0
        (ContentType.LargeOutput 10001)).1 = none :=
  ⟨(analyze_replicate_x 10000 (by omega) (by omega)).1, by decide,
   (analyze_replicate_x 10001 (by omega) (by omega)).1, by decide, by decide⟩

end Ctxopt
